import Mathlib

/-
Verification development for the Xero integration repository.

The core under verification is the JSON-RPC client in utils/mcp_connection.py
(class MCPClient) together with the tool-layer authentication helper in
utils/xero_tools.py.  Pure string classification is embedded as Lean functions
on String; the stateful client is embedded as explicit state passing over a
ClientState record, with the child process's observable stream behaviour
supplied as an explicit environment value (StreamEnv / StartEnv).
-/

set_option linter.unusedVariables false

namespace Xero

/-- Contiguous-substring test on character lists: does needle occur inside hay?
This is the semantics of the Python expression needle in hay for strings. -/
def containsSub : List Char → List Char → Bool
  | needle, [] => needle.isEmpty
  | needle, c :: rest =>
    needle.isPrefixOf (c :: rest) || containsSub needle rest

/-- String containment, as the Python membership test needle in hay. -/
def strIn (needle hay : String) : Bool :=
  containsSub needle.toList hay.toList

/-- Lowercasing, as the Python method str.lower on ASCII text: lowercase each
character.  Written as a character map so that the kernel can evaluate it on
concrete strings. -/
def str_lower (s : String) : String :=
  ⟨s.data.map Char.toLower⟩

/-- The indicator list of detect_authentication_error in utils/mcp_connection.py
(lines 58 to 67 of the source). -/
def auth_indicators : List String :=
  ["status code 401", "status code 403", "unauthorized", "forbidden",
   "authentication failed", "invalid token", "token expired", "access denied"]

/-- Embedding of detect_authentication_error(response_text) from
utils/mcp_connection.py: lowercase the text, then test whether any indicator
occurs as a substring. -/
def detect_authentication_error (response_text : String) : Bool :=
  auth_indicators.any (fun indicator => strIn indicator (str_lower response_text))

/-- The indicator list of is_authentication_error in utils/xero_tools.py
(lines 70 to 81 of the source): the eight transport indicators plus the two
tool-layer variants. -/
def xero_auth_indicators : List String :=
  ["status code 401", "status code 403", "unauthorized", "forbidden",
   "authentication failed", "invalid token", "token expired", "access denied",
   "token has expired", "invalid bearer token"]

/-- Embedding of is_authentication_error(error_message) from utils/xero_tools.py:
an empty message is never classified; otherwise lowercase and test the ten
indicators as substrings. -/
def is_authentication_error (error_message : String) : Bool :=
  if error_message.isEmpty then false
  else xero_auth_indicators.any (fun indicator => strIn indicator (str_lower error_message))

/-- Spec-side signature set (section 4.3 of the specification): the eight
signatures plus the two tool-layer variants, which the spec ascribes to the
Authentication Sentinel as a single set.  This definition follows the spec's
words and exists only to be compared with the code-derived detectors above. -/
def spec_signature_set : List String :=
  ["status code 401", "status code 403", "unauthorized", "forbidden",
   "authentication failed", "invalid token", "token expired", "access denied",
   "token has expired", "invalid bearer token"]

/-- Spec-side detection: a text is an authentication failure when it contains,
case-insensitively, any spec signature as a substring. -/
def spec_detects (text : String) : Bool :=
  spec_signature_set.any (fun s => strIn s (str_lower text))

/-- An error object of a JSON-RPC response: optional code and message fields
(the source reads both with defaults via dict.get).  Codes are carried as
opaque string literals; their numeric or string nature plays no role in the
client's control flow. -/
structure RpcError where
  code : Option String
  message : Option String
deriving DecidableEq

/-- One element of result.content: either a dict carrying a "text" key (only
such blocks are scanned by call_tool) or anything else. -/
inductive ContentBlock where
  | textBlock (text : String)
  | otherBlock
deriving DecidableEq

/-- The result object of a successful JSON-RPC response.  Only the content
field influences the client's control flow; content is absent when the result
dict carries no "content" key. -/
structure RpcResult where
  content : Option (List ContentBlock)
deriving DecidableEq

/-- A parsed JSON-RPC response line: optional id (response.get("id")), optional
error object, optional result object. -/
structure RpcResponse where
  id : Option Int
  error : Option RpcError
  result : Option RpcResult
deriving DecidableEq

/-- One outcome of a readline() call inside the response loop of MCPClient.
emptyRead is an empty string (stream at end of file: the code sleeps briefly and
continues); blank is a whitespace-only line; malformed is a line that
json.loads rejects, or that parses to a non-object (both are swallowed by the
loop's exception handlers); jsonLine is a parsed response object. -/
inductive LineRead where
  | emptyRead
  | blank
  | malformed
  | jsonLine (r : RpcResponse)
deriving DecidableEq

/-- Observable behaviour of the child process during one rpc call:
whether the write to stdin raises BrokenPipeError, the time (if any) at which
poll() starts reporting the process dead, and the finite sequence of readline
results together with the time at which each one returns.  An exhausted event
list with a live process means readline never returns again: the blocking
readline call on the pipe then never yields control back to the loop. -/
structure StreamEnv where
  pipeBroken : Bool
  procDeath : Option Nat
  events : List (Nat × LineRead)

/-- The mutable state of an MCPClient instance: the process handle (presence
only), the request-id counter, the initialized flag, the sticky
authentication-failed flag, and the configured default timeout. -/
structure ClientState where
  proc : Option Unit
  request_id : Nat
  initialized : Bool
  authentication_failed : Bool
  timeout : Nat
deriving DecidableEq

/-- Embedding of MCPClient.__init__ (utils/mcp_connection.py lines 105 to 128):
no process, counter zero, both flags false. -/
def MCPClient_init (timeout : Nat) : ClientState :=
  { proc := none, request_id := 0, initialized := false,
    authentication_failed := false, timeout := timeout }

/-- The ways a call can leave the client: a returned response, or one of the
four raised error kinds, or blocked (the call never returns because the loop
is stuck in a blocking readline with no further input ever arriving). -/
inductive CallResult where
  | ok (response : RpcResponse)
  | connErr
  | timeoutErr
  | serverErr (message : String) (code : String)
  | authErr (message : String)
  | blocked
deriving DecidableEq

/-- Whether poll() reports the process dead at time t. -/
def procDead (procDeath : Option Nat) (t : Nat) : Bool :=
  match procDeath with
  | some d => d ≤ t
  | none => false

/-- Embedding of the response-wait loop of MCPClient._rpc
(utils/mcp_connection.py lines 276 to 328).  The loop runs while the current
time is below the deadline; each iteration first polls the process, then calls
readline, which returns the next event at that event's recorded time (readline
blocks until a line or end of file is available).  An empty read costs a short
sleep, modelled as one extra time unit.  Malformed lines, blank lines and
responses with a non-matching id are skipped and reading continues.  A matching
response resolves the call: an error object whose message matches an
authentication indicator sets the sticky flag and yields authErr; any other
error object yields serverErr with its message and code (with the source's
defaults); otherwise the response itself is returned.  The Bool component is
the value of the authentication_failed flag when the loop exits. -/
def readLoop (reqId : Nat) (deadline : Nat) (flag : Bool) (procDeath : Option Nat) :
    List (Nat × LineRead) → Nat → CallResult × Bool
  | events, t =>
    if deadline ≤ t then (.timeoutErr, flag)
    else if procDead procDeath t then (.connErr, flag)
    else
      match events with
      | [] => (.blocked, flag)
      | (tArr, l) :: rest =>
        match l with
        | .emptyRead => readLoop reqId deadline flag procDeath rest (tArr + 1)
        | .blank => readLoop reqId deadline flag procDeath rest tArr
        | .malformed => readLoop reqId deadline flag procDeath rest tArr
        | .jsonLine r =>
          if r.id = some (reqId : Int) then
            match r.error with
            | some e =>
              let msg := e.message.getD "Unknown error"
              if detect_authentication_error msg then (.authErr msg, true)
              else (.serverErr msg (e.code.getD "unknown"), flag)
            | none => (.ok r, flag)
          else readLoop reqId deadline flag procDeath rest tArr

/-- The full observable outcome of one client operation: the call result, the
client state afterwards, the request ids allocated (incrementing the counter),
and the number of write attempts made on the child's stdin. -/
structure RpcOut where
  result : CallResult
  state : ClientState
  alloc : List Nat
  wrote : Nat
deriving DecidableEq

/-- Embedding of MCPClient._rpc (utils/mcp_connection.py lines 227 to 328).
Without a process handle it raises connErr with no id allocated and no write.
Otherwise it increments the request-id counter, writes the request line (a
BrokenPipeError during the write surfaces as connErr), and enters the response
loop with the deadline set one timeout from now (time starts at zero).  The
message formatting of the source's log strings and exception texts other than
the matched text itself is elided. -/
def rpc (st : ClientState) (method : String) (timeout : Option Nat)
    (env : StreamEnv) : RpcOut :=
  match st.proc with
  | none => { result := .connErr, state := st, alloc := [], wrote := 0 }
  | some _ =>
    let tmo := timeout.getD st.timeout
    let st1 := { st with request_id := st.request_id + 1 }
    let reqId := st1.request_id
    if env.pipeBroken then
      { result := .connErr, state := st1, alloc := [reqId], wrote := 1 }
    else
      let step := readLoop reqId tmo st1.authentication_failed env.procDeath env.events 0
      { result := step.1,
        state := { st1 with authentication_failed := step.2 },
        alloc := [reqId], wrote := 1 }

/-- Embedding of the content scan of MCPClient.call_tool (utils/mcp_connection.py
lines 368 to 377): walk the content blocks in order; for each dict block
carrying a "text" key, test its text; return the first text that matches an
authentication indicator. -/
def findAuthText : List ContentBlock → Option String
  | [] => none
  | .textBlock text :: rest =>
    if detect_authentication_error text then some text else findAuthText rest
  | .otherBlock :: rest => findAuthText rest

/-- Embedding of MCPClient.call_tool (utils/mcp_connection.py lines 330 to 384).
It checks the initialized flag first (connErr), then the sticky
authentication flag (authErr with the source's fixed message), both without any
write.  Otherwise it performs the tools/call rpc; on a returned response it
scans result.content (with the source's dict.get defaults) and raises authErr,
setting the sticky flag, on the first matching text block; an authErr from the
rpc itself re-sets the sticky flag and propagates; every other outcome
propagates unchanged. -/
def call_tool (st : ClientState) (name : String) (timeout : Option Nat)
    (env : StreamEnv) : RpcOut :=
  if st.initialized = false then
    { result := .connErr, state := st, alloc := [], wrote := 0 }
  else if st.authentication_failed then
    { result := .authErr "Previous authentication failure detected",
      state := st, alloc := [], wrote := 0 }
  else
    let out := rpc st "tools/call" timeout env
    match out.result with
    | .ok r =>
      let blocks := (r.result.getD { content := none }).content.getD []
      match findAuthText blocks with
      | some text =>
        { out with result := .authErr text,
                   state := { out.state with authentication_failed := true } }
      | none => { out with result := .ok r }
    | .authErr m =>
      { out with result := .authErr m,
                 state := { out.state with authentication_failed := true } }
    | other => out

/-- Embedding of MCPClient.list_tools (utils/mcp_connection.py lines 386 to
396): it checks only the initialized flag, then performs the tools/list rpc
with the instance default timeout.  It does not consult the sticky
authentication flag. -/
def list_tools (st : ClientState) (env : StreamEnv) : RpcOut :=
  if st.initialized = false then
    { result := .connErr, state := st, alloc := [], wrote := 0 }
  else
    rpc st "tools/list" none env

/-- Observable behaviour of the child process during close(): graceful means
terminate() plus wait(5) succeed; killAfterTimeout means wait(5) raises
TimeoutExpired and the kill() plus wait(2) path succeeds; terminationError
means some step of the sequence raises (for example wait(2) also times out, or
terminate() itself raises). -/
inductive TermBehavior where
  | graceful
  | killAfterTimeout
  | terminationError
deriving DecidableEq

/-- The outcome of the termination try-block inside close(): ok when the
sequence completes (possibly through the kill path, whose TimeoutExpired is
caught by the inner handler), error when an exception escapes to the outer
handler. -/
def closeBody : TermBehavior → Except Unit Unit
  | .graceful => .ok ()
  | .killAfterTimeout => .ok ()
  | .terminationError => .error ()

/-- Embedding of MCPClient.close (utils/mcp_connection.py lines 195 to 215).
With no process handle it returns at once, leaving the state untouched.
Otherwise it runs the termination sequence; whether that sequence completes or
raises (the outer handler logs and absorbs every exception), the finally block
clears the process handle and the initialized flag.  No exception ever escapes
close, which the total return type makes explicit. -/
def close (st : ClientState) (beh : TermBehavior) : ClientState :=
  match st.proc with
  | none => st
  | some _ =>
    match closeBody beh with
    | .ok _ => { st with proc := none, initialized := false }
    | .error _ => { st with proc := none, initialized := false }

/-- How the spawn attempt inside start() goes: the executable is missing
(FileNotFoundError), or the process exits within the grace window (poll()
reports an exit code), or the process is up and running. -/
inductive SpawnResult where
  | spawnFail
  | exitedImmediately
  | running
deriving DecidableEq

/-- Environment for one start() invocation: the spawn outcome, the stream
behaviour seen by the initialization handshake rpc, and the child's behaviour
if close() runs during the failure path. -/
structure StartEnv where
  spawn : SpawnResult
  handshake : StreamEnv
  closeBeh : TermBehavior

/-- How start() leaves the caller: a normal return with the handshake done, a
normal return because the client was already started (the source logs a
warning and returns), a raised MCPConnectionError (every failure inside start
is wrapped into that kind), or blocked when the handshake rpc itself never
returns. -/
inductive StartResult where
  | ok
  | alreadyStarted
  | connErr
  | blocked
deriving DecidableEq

/-- Embedding of MCPClient.start (utils/mcp_connection.py lines 130 to 193).
With a process already present it returns at once.  A failed spawn raises
connErr with the handle still absent.  A process that exits within the grace
window raises connErr with the (dead) handle still set: the source raises at
that point without calling close.  Otherwise the handshake rpc runs with the
default timeout; on a returned response the initialized flag is set to true; on
any raised handshake error, close() runs on the post-handshake state before the
wrapped connErr propagates.  The returned list is the request ids the handshake
allocated. -/
def start (st : ClientState) (env : StartEnv) :
    StartResult × ClientState × List Nat :=
  match st.proc with
  | some _ => (.alreadyStarted, st, [])
  | none =>
    match env.spawn with
    | .spawnFail => (.connErr, st, [])
    | .exitedImmediately => (.connErr, { st with proc := some () }, [])
    | .running =>
      let stP := { st with proc := some () }
      let out := rpc stP "initialize" none env.handshake
      match out.result with
      | .ok _ => (.ok, { out.state with initialized := true }, out.alloc)
      | .blocked => (.blocked, out.state, out.alloc)
      | _ => (.connErr, close out.state env.closeBeh, out.alloc)

/-- One operation on a client session: start, a bare rpc call, a tool call,
a tool listing, or close, each with its environment. -/
inductive SessionOp where
  | opStart (env : StartEnv)
  | opRpc (method : String) (timeout : Option Nat) (env : StreamEnv)
  | opCallTool (name : String) (timeout : Option Nat) (env : StreamEnv)
  | opListTools (env : StreamEnv)
  | opClose (beh : TermBehavior)

/-- Run one session operation: the state afterwards and the request ids it
allocated, in order. -/
def runOp (st : ClientState) : SessionOp → ClientState × List Nat
  | .opStart env =>
    let out := start st env
    (out.2.1, out.2.2)
  | .opRpc method timeout env =>
    let out := rpc st method timeout env
    (out.state, out.alloc)
  | .opCallTool name timeout env =>
    let out := call_tool st name timeout env
    (out.state, out.alloc)
  | .opListTools env =>
    let out := list_tools st env
    (out.state, out.alloc)
  | .opClose beh => (close st beh, [])

/-- Run a sequence of session operations: the final state and the
concatenation of all allocated request ids, in order of allocation. -/
def runOps (st : ClientState) : List SessionOp → ClientState × List Nat
  | [] => (st, [])
  | op :: ops =>
    let first := runOp st op
    let rest := runOps first.1 ops
    (rest.1, first.2 ++ rest.2)

/-- A readline result the response loop skips without resolving the call with
id reqId: an empty read, a blank line, a malformed line, or a parsed response
whose id differs from reqId. -/
def skippable (reqId : Nat) : LineRead → Bool
  | .emptyRead => true
  | .blank => true
  | .malformed => true
  | .jsonLine r => decide (r.id ≠ some (reqId : Int))

/-- The resolution of the response loop on the matching response: the source's
error-object branch followed by the plain return. -/
def resolveMatch (r : RpcResponse) (flag : Bool) : CallResult × Bool :=
  match r.error with
  | some e =>
    let msg := e.message.getD "Unknown error"
    if detect_authentication_error msg then (.authErr msg, true)
    else (.serverErr msg (e.code.getD "unknown"), flag)
  | none => (.ok r, flag)

/-- A stream on which exactly one line arrives, at time tm: the parsed
response r.  The write succeeds and the process stays alive. -/
def singleEnv (tm : Nat) (r : RpcResponse) : StreamEnv :=
  { pipeBroken := false, procDeath := none, events := [(tm, .jsonLine r)] }

/-- A stream on which the write succeeds, the process stays alive, and no line
ever arrives. -/
def silentEnv : StreamEnv :=
  { pipeBroken := false, procDeath := none, events := [] }

/-- Whether a call outcome is a raised exception (as opposed to a normal
return or a call that never returns). -/
def raises : CallResult → Bool
  | .ok _ => false
  | .blocked => false
  | _ => true

/-- Concrete data for evaluation: a result whose single content block carries
the text of the specification's Forbidden example. -/
def forbiddenResult : RpcResult :=
  { content := some [ContentBlock.textBlock "Request failed: Forbidden"] }

/-- A nominally successful response (no error field) whose first content block
text reads Request failed: Forbidden. -/
def forbiddenResp : RpcResponse :=
  { id := some 1, error := none, result := some forbiddenResult }

/-- A server error object whose message matches no authentication
indicator. -/
def boomError : RpcError :=
  { code := some "500", message := some "boom" }

/-- A correlated response carrying an explicit non-authentication error. -/
def boomResp : RpcResponse :=
  { id := some 1, error := some boomError, result := none }

/-- A start environment in which the spawn succeeds and the handshake receives
an explicit non-authentication error response, making the handshake raise. -/
def boomStartEnv : StartEnv :=
  { spawn := .running,
    handshake := { pipeBroken := false, procDeath := none,
                   events := [(0, LineRead.jsonLine boomResp)] },
    closeBeh := .graceful }

end Xero

namespace Xero

/-- The character-list substring test agrees with the infix relation. -/
theorem containsSub_eq_true_iff (needle hay : List Char) :
    containsSub needle hay = true ↔ needle <:+: hay := by
  induction hay with
  | nil =>
    simp [containsSub, List.isEmpty_iff, List.infix_nil]
  | cons c rest ih =>
    simp [containsSub, ih, List.infix_cons_iff, List.isPrefixOf_iff_prefix]

/-- The string substring test agrees with the infix relation on character
lists. -/
theorem strIn_eq_true_iff (needle hay : String) :
    strIn needle hay = true ↔ needle.toList <:+: hay.toList := by
  simp [strIn, containsSub_eq_true_iff]

end Xero

namespace Xero

/-- C2 (counterexample).  The text "token has expired" carries a signature of
the spec's full Sentinel signature set, yet the detection function that the
client applies to RPC error messages and to textual content blocks does not
classify it as an authentication failure: the two tool-layer variants are
absent from that function's indicator list. -/
theorem C2_counterexample :
    spec_detects "token has expired" = true ∧
    detect_authentication_error "token has expired" = false := by
  decide

/-- C2 (amended).  The detection applied on explicit RPC error messages and on
textual content blocks (detect_authentication_error) classifies a text exactly
when it contains, case-insensitively, one of the eight transport signatures as
a substring; the tool-layer helper is_authentication_error classifies a text
exactly when it is nonempty and contains one of the ten signatures (the eight
plus the two tool-layer variants). -/
theorem C2_amended_signature_semantics (t : String) :
    (detect_authentication_error t = true ↔
      ∃ s ∈ auth_indicators, s.toList <:+: (str_lower t).toList) ∧
    (is_authentication_error t = true ↔
      t ≠ "" ∧ ∃ s ∈ xero_auth_indicators, s.toList <:+: (str_lower t).toList) := by
  constructor
  · simp [detect_authentication_error, List.any_eq_true, strIn_eq_true_iff]
  · by_cases h : t = ""
    · subst h
      simp [is_authentication_error, show "".isEmpty = true from rfl]
    · simp [is_authentication_error, String.isEmpty_iff, h,
        List.any_eq_true, strIn_eq_true_iff]

/-- C9.  close never raises (it is a total function into ClientState), it
leaves the process handle cleared on every exit path, a second close after a
first one changes nothing, and its final state does not depend on how the
child process behaves during termination: every failure of the termination
sequence is absorbed. -/
theorem C9_close_idempotent (st : ClientState) (beh beh2 : TermBehavior) :
    (close st beh).proc = none ∧
    close (close st beh) beh2 = close st beh ∧
    close st beh = close st beh2 := by
  cases hp : st.proc <;> cases beh <;> cases beh2 <;>
    simp_all [close, closeBody]

/-- C3 (evaluation at the failing input).  A started, initialized session
whose child process stays alive and never writes a line: the claim demands
that the call raise TimeoutError once the two-unit deadline has elapsed, but
the call never returns at all, because the loop is stuck in the blocking
readline and the deadline test at the top of the loop is never reached
again. -/
theorem C3_silent_child_blocks :
    (rpc { proc := some (), request_id := 0, initialized := true,
           authentication_failed := false, timeout := 2 }
        "tools/list" none silentEnv).result = .blocked ∧
    (rpc { proc := some (), request_id := 0, initialized := true,
           authentication_failed := false, timeout := 2 }
        "tools/list" none silentEnv).result ≠ .timeoutErr := by
  decide

/-- C1 (counterexample).  A session whose authentication_failed flag is true:
the claim demands that every tool call on it fail immediately with
AuthenticationError and perform no write, but list_tools consults only the
initialized flag, so it proceeds to the rpc and performs one write on the
child's input stream (and here, against a silent child, it does not fail with
AuthenticationError at all). -/
theorem C1_counterexample :
    (list_tools { proc := some (), request_id := 0, initialized := true,
                  authentication_failed := true, timeout := 5 } silentEnv).wrote = 1 ∧
    (list_tools { proc := some (), request_id := 0, initialized := true,
                  authentication_failed := true, timeout := 5 } silentEnv).result
      = .blocked := by
  decide

end Xero

namespace Xero

/-- The response loop never lowers the authentication flag: started with the
flag true, every exit leaves it true. -/
theorem readLoop_flag_true (reqId deadline : Nat) (procDeath : Option Nat)
    (events : List (Nat × LineRead)) (t : Nat) :
    (readLoop reqId deadline true procDeath events t).2 = true := by
  induction events generalizing t with
  | nil =>
    by_cases h1 : deadline ≤ t
    · simp [readLoop, h1]
    · by_cases h2 : procDead procDeath t = true <;> simp [readLoop, h1, h2]
  | cons e rest ih =>
    obtain ⟨tArr, l⟩ := e
    by_cases h1 : deadline ≤ t
    · simp [readLoop, h1]
    · by_cases h2 : procDead procDeath t = true
      · simp [readLoop, h1, h2]
      · cases l with
        | emptyRead => simpa [readLoop, h1, h2] using ih (tArr + 1)
        | blank => simpa [readLoop, h1, h2] using ih tArr
        | malformed => simpa [readLoop, h1, h2] using ih tArr
        | jsonLine r =>
          by_cases h3 : r.id = some (reqId : Int)
          · cases hre : r.error with
            | some e2 =>
              by_cases h4 :
                  detect_authentication_error (e2.message.getD "Unknown error") = true
              · simp [readLoop, h1, h2, h3, hre, h4]
              · simp [readLoop, h1, h2, h3, hre, h4]
            | none => simp [readLoop, h1, h2, h3, hre]
          · simpa [readLoop, h1, h2, h3] using ih tArr

/-- Against a live process, the response loop started strictly before the
deadline, fed any run of skippable lines followed by the line whose id matches
the in-flight request id, resolves exactly as the source's match branch on
that response, regardless of the skippable lines. -/
theorem readLoop_resolves (reqId deadline : Nat) (flag : Bool) (r : RpcResponse)
    (tm : Nat) (junk : List (Nat × LineRead)) (t : Nat)
    (ht : t < deadline)
    (hj : ∀ p ∈ junk, p.1 + 1 < deadline ∧ skippable reqId p.2 = true)
    (hr : r.id = some (reqId : Int)) :
    readLoop reqId deadline flag none (junk ++ [(tm, .jsonLine r)]) t =
      resolveMatch r flag := by
  induction junk generalizing t with
  | nil =>
    have h1 : ¬ deadline ≤ t := by omega
    cases hre : r.error with
    | some e2 =>
      by_cases h4 : detect_authentication_error (e2.message.getD "Unknown error") = true
      · simp [readLoop, h1, procDead, hr, resolveMatch, hre, h4]
      · simp [readLoop, h1, procDead, hr, resolveMatch, hre, h4]
    | none => simp [readLoop, h1, procDead, hr, resolveMatch, hre]
  | cons p junk ih =>
    obtain ⟨tArr, l⟩ := p
    obtain ⟨htA, hsk⟩ := hj (tArr, l) (List.mem_cons_self _ _)
    have hj2 : ∀ p ∈ junk, p.1 + 1 < deadline ∧ skippable reqId p.2 = true :=
      fun p hp => hj p (List.mem_cons_of_mem _ hp)
    have h1 : ¬ deadline ≤ t := by omega
    cases l with
    | emptyRead =>
      simpa [readLoop, h1, procDead] using ih (tArr + 1) htA hj2
    | blank =>
      simpa [readLoop, h1, procDead] using ih tArr (by omega) hj2
    | malformed =>
      simpa [readLoop, h1, procDead] using ih tArr (by omega) hj2
    | jsonLine r2 =>
      have hne : ¬ r2.id = some (reqId : Int) := by
        simpa [skippable] using hsk
      simpa [readLoop, h1, procDead, hne] using ih tArr (by omega) hj2

/-- An rpc call over a stream delivering exactly the matching response line:
the outcome is the resolution of that response, the counter advances by one,
and one request is written. -/
theorem rpc_single_event (st : ClientState) (method : String) (tmo : Option Nat)
    (r : RpcResponse) (tm : Nat)
    (hp : st.proc = some ())
    (hd : 0 < tmo.getD st.timeout)
    (hr : r.id = some ((st.request_id + 1 : Nat) : Int)) :
    rpc st method tmo (singleEnv tm r) =
      { result := (resolveMatch r st.authentication_failed).1,
        state :=
          { st with
            request_id := st.request_id + 1,
            authentication_failed := (resolveMatch r st.authentication_failed).2 },
        alloc := [st.request_id + 1], wrote := 1 } := by
  have h := readLoop_resolves (st.request_id + 1) (tmo.getD st.timeout)
    st.authentication_failed r tm [] 0 hd (by simp) hr
  simp only [List.nil_append] at h
  simp [rpc, hp, singleEnv, h]

/-- C4.  For every sequence of skippable lines (malformed lines, blank lines,
empty reads, and parsed responses with a non-matching id) interleaved before
the line whose id matches the in-flight request, the call produces exactly the
same outcome, state and write trace as over the stream holding only the
matching line, and that outcome is the resolution of the matching response:
the noise is silently skipped and never surfaced. -/
theorem C4_noise_tolerance (st : ClientState) (method : String) (tmo : Option Nat)
    (junk : List (Nat × LineRead)) (r : RpcResponse) (tm tm2 : Nat)
    (hp : st.proc = some ())
    (hd : 0 < tmo.getD st.timeout)
    (hj : ∀ p ∈ junk, p.1 + 1 < tmo.getD st.timeout ∧
        skippable (st.request_id + 1) p.2 = true)
    (hr : r.id = some ((st.request_id + 1 : Nat) : Int)) :
    rpc st method tmo
        { pipeBroken := false, procDeath := none,
          events := junk ++ [(tm, .jsonLine r)] } =
      rpc st method tmo (singleEnv tm2 r) ∧
    (rpc st method tmo
        { pipeBroken := false, procDeath := none,
          events := junk ++ [(tm, .jsonLine r)] }).result
      = (resolveMatch r st.authentication_failed).1 := by
  have hL := readLoop_resolves (st.request_id + 1) (tmo.getD st.timeout)
    st.authentication_failed r tm junk 0 hd hj hr
  have hR := readLoop_resolves (st.request_id + 1) (tmo.getD st.timeout)
    st.authentication_failed r tm2 [] 0 hd (by simp) hr
  simp only [List.nil_append] at hR
  constructor
  · simp [rpc, hp, singleEnv, hL, hR]
  · simp [rpc, hp, hL]

/-- C5.  Classification of the correlated response by a tool call: an explicit
error object whose message matches an authentication indicator yields
AuthenticationError and sets the sticky flag; an explicit error object whose
message does not match yields ServerError carrying that error's message and
code; a successful result with a matching textual content block yields
AuthenticationError and sets the flag despite the absent error field; and
otherwise the response is returned unchanged with the flag still clear. -/
theorem C5_response_classification (st : ClientState) (name : String)
    (tmo : Option Nat) (r : RpcResponse) (tm : Nat)
    (hp : st.proc = some ()) (hi : st.initialized = true)
    (ha : st.authentication_failed = false)
    (hd : 0 < tmo.getD st.timeout)
    (hr : r.id = some ((st.request_id + 1 : Nat) : Int)) :
    (∀ e, r.error = some e →
      detect_authentication_error (e.message.getD "Unknown error") = true →
        (call_tool st name tmo (singleEnv tm r)).result
            = .authErr (e.message.getD "Unknown error") ∧
        (call_tool st name tmo (singleEnv tm r)).state.authentication_failed
            = true) ∧
    (∀ e, r.error = some e →
      detect_authentication_error (e.message.getD "Unknown error") = false →
        (call_tool st name tmo (singleEnv tm r)).result
            = .serverErr (e.message.getD "Unknown error") (e.code.getD "unknown") ∧
        (call_tool st name tmo (singleEnv tm r)).state.authentication_failed
            = false) ∧
    (r.error = none → ∀ text,
      findAuthText ((r.result.getD { content := none }).content.getD [])
          = some text →
        (call_tool st name tmo (singleEnv tm r)).result = .authErr text ∧
        (call_tool st name tmo (singleEnv tm r)).state.authentication_failed
            = true) ∧
    (r.error = none →
      findAuthText ((r.result.getD { content := none }).content.getD [])
          = none →
        call_tool st name tmo (singleEnv tm r) =
          { result := .ok r,
            state :=
              { st with
                request_id := st.request_id + 1,
                authentication_failed := false },
            alloc := [st.request_id + 1], wrote := 1 }) := by
  have hE := rpc_single_event st "tools/call" tmo r tm hp hd hr
  refine ⟨?_, ?_, ?_, ?_⟩
  · intro e hre hdet
    have hres : resolveMatch r false
        = (.authErr (e.message.getD "Unknown error"), true) := by
      simp [resolveMatch, hre, hdet]
    simp [call_tool, hi, ha, hE, hres]
  · intro e hre hdet
    have hres : resolveMatch r false
        = (.serverErr (e.message.getD "Unknown error") (e.code.getD "unknown"),
           false) := by
      simp [resolveMatch, hre, hdet]
    simp [call_tool, hi, ha, hE, hres]
  · intro hre text hf
    have hres : resolveMatch r false
        = (.ok r, false) := by
      simp [resolveMatch, hre]
    simp [call_tool, hi, ha, hE, hres, hf]
  · intro hre hf
    have hres : resolveMatch r false
        = (.ok r, false) := by
      simp [resolveMatch, hre]
    simp [call_tool, hi, ha, hE, hres, hf]

/-- close always leaves the process handle cleared. -/
theorem close_proc (st : ClientState) (beh : TermBehavior) :
    (close st beh).proc = none := by
  cases hp : st.proc <;> cases beh <;> simp_all [close, closeBody]

/-- close does not touch the request-id counter. -/
theorem close_request_id (st : ClientState) (beh : TermBehavior) :
    (close st beh).request_id = st.request_id := by
  cases hp : st.proc <;> cases beh <;> simp_all [close, closeBody]

/-- close does not touch the sticky authentication flag. -/
theorem close_auth (st : ClientState) (beh : TermBehavior) :
    (close st beh).authentication_failed = st.authentication_failed := by
  cases hp : st.proc <;> cases beh <;> simp_all [close, closeBody]

/-- close does not touch the configured timeout. -/
theorem close_timeout (st : ClientState) (beh : TermBehavior) :
    (close st beh).timeout = st.timeout := by
  cases hp : st.proc <;> cases beh <;> simp_all [close, closeBody]

/-- An rpc call never lowers the sticky authentication flag. -/
theorem rpc_flag_mono (st : ClientState) (method : String) (tmo : Option Nat)
    (env : StreamEnv) (h : st.authentication_failed = true) :
    (rpc st method tmo env).state.authentication_failed = true := by
  cases hp : st.proc with
  | none => simp [rpc, hp, h]
  | some u =>
    by_cases hb : env.pipeBroken
    · simp [rpc, hp, hb, h]
    · simp [rpc, hp, hb, h, readLoop_flag_true]

/-- An rpc call never decreases the request-id counter, and every id it
allocates lies strictly above the old counter and at most at the new one. -/
theorem rpc_id_bound (st : ClientState) (method : String) (tmo : Option Nat)
    (env : StreamEnv) :
    st.request_id ≤ (rpc st method tmo env).state.request_id ∧
    (∀ i ∈ (rpc st method tmo env).alloc,
      st.request_id < i ∧ i ≤ (rpc st method tmo env).state.request_id) ∧
    List.Pairwise (· < ·) (rpc st method tmo env).alloc := by
  cases hp : st.proc with
  | none => simp [rpc, hp]
  | some u =>
    by_cases hb : env.pipeBroken <;> simp [rpc, hp, hb]

/-- A tool call never lowers the sticky authentication flag. -/
theorem call_tool_flag_mono (st : ClientState) (name : String) (tmo : Option Nat)
    (env : StreamEnv) (h : st.authentication_failed = true) :
    (call_tool st name tmo env).state.authentication_failed = true := by
  by_cases hi : st.initialized = false
  · simp [call_tool, hi, h]
  · simp [call_tool, hi, h]

/-- A tool call never decreases the request-id counter, and every id it
allocates lies strictly above the old counter and at most at the new one. -/
theorem call_tool_id_bound (st : ClientState) (name : String) (tmo : Option Nat)
    (env : StreamEnv) :
    st.request_id ≤ (call_tool st name tmo env).state.request_id ∧
    (∀ i ∈ (call_tool st name tmo env).alloc,
      st.request_id < i ∧ i ≤ (call_tool st name tmo env).state.request_id) ∧
    List.Pairwise (· < ·) (call_tool st name tmo env).alloc := by
  by_cases hi : st.initialized = false
  · simp [call_tool, hi]
  · by_cases ha : st.authentication_failed
    · simp [call_tool, hi, ha]
    · obtain ⟨h1, h2, h3⟩ := rpc_id_bound st "tools/call" tmo env
      cases hres : (rpc st "tools/call" tmo env).result with
      | ok r =>
        cases hf : findAuthText ((r.result.getD { content := none }).content.getD []) with
        | some text => simpa [call_tool, hi, ha, hres, hf] using ⟨h1, h2, h3⟩
        | none => simpa [call_tool, hi, ha, hres, hf] using ⟨h1, h2, h3⟩
      | connErr => simpa [call_tool, hi, ha, hres] using ⟨h1, h2, h3⟩
      | timeoutErr => simpa [call_tool, hi, ha, hres] using ⟨h1, h2, h3⟩
      | serverErr m c => simpa [call_tool, hi, ha, hres] using ⟨h1, h2, h3⟩
      | authErr m => simpa [call_tool, hi, ha, hres] using ⟨h1, h2, h3⟩
      | blocked => simpa [call_tool, hi, ha, hres] using ⟨h1, h2, h3⟩

/-- A tool listing never lowers the sticky authentication flag. -/
theorem list_tools_flag_mono (st : ClientState) (env : StreamEnv)
    (h : st.authentication_failed = true) :
    (list_tools st env).state.authentication_failed = true := by
  by_cases hi : st.initialized = false
  · simp [list_tools, hi, h]
  · simpa [list_tools, hi] using rpc_flag_mono st "tools/list" none env h

/-- A tool listing never decreases the request-id counter, and every id it
allocates lies strictly above the old counter and at most at the new one. -/
theorem list_tools_id_bound (st : ClientState) (env : StreamEnv) :
    st.request_id ≤ (list_tools st env).state.request_id ∧
    (∀ i ∈ (list_tools st env).alloc,
      st.request_id < i ∧ i ≤ (list_tools st env).state.request_id) ∧
    List.Pairwise (· < ·) (list_tools st env).alloc := by
  by_cases hi : st.initialized = false
  · simp [list_tools, hi]
  · simpa [list_tools, hi] using rpc_id_bound st "tools/list" none env

/-- start never lowers the sticky authentication flag. -/
theorem start_flag_mono (st : ClientState) (env : StartEnv)
    (h : st.authentication_failed = true) :
    (start st env).2.1.authentication_failed = true := by
  cases hp : st.proc with
  | some u => simp [start, hp, h]
  | none =>
    cases hs : env.spawn with
    | spawnFail => simp [start, hp, hs, h]
    | exitedImmediately => simp [start, hp, hs, h]
    | running =>
      have hm := rpc_flag_mono { st with proc := some () } "initialize" none
        env.handshake (by simpa using h)
      cases hres : (rpc { st with proc := some () } "initialize" none env.handshake).result with
      | ok r => simpa [start, hp, hs, hres] using hm
      | blocked => simpa [start, hp, hs, hres] using hm
      | connErr => simpa [start, hp, hs, hres, close_auth] using hm
      | timeoutErr => simpa [start, hp, hs, hres, close_auth] using hm
      | serverErr m c => simpa [start, hp, hs, hres, close_auth] using hm
      | authErr m => simpa [start, hp, hs, hres, close_auth] using hm

/-- start never decreases the request-id counter, and every id its handshake
allocates lies strictly above the old counter and at most at the new one. -/
theorem start_id_bound (st : ClientState) (env : StartEnv) :
    st.request_id ≤ (start st env).2.1.request_id ∧
    (∀ i ∈ (start st env).2.2,
      st.request_id < i ∧ i ≤ (start st env).2.1.request_id) ∧
    List.Pairwise (· < ·) (start st env).2.2 := by
  cases hp : st.proc with
  | some u => simp [start, hp]
  | none =>
    cases hs : env.spawn with
    | spawnFail => simp [start, hp, hs]
    | exitedImmediately => simp [start, hp, hs]
    | running =>
      obtain ⟨h1, h2, h3⟩ := rpc_id_bound { st with proc := some () } "initialize" none env.handshake
      cases hres : (rpc { st with proc := some () } "initialize" none env.handshake).result with
      | ok r => simpa [start, hp, hs, hres] using ⟨h1, h2, h3⟩
      | blocked => simpa [start, hp, hs, hres] using ⟨h1, h2, h3⟩
      | connErr => simpa [start, hp, hs, hres, close_request_id] using ⟨h1, h2, h3⟩
      | timeoutErr => simpa [start, hp, hs, hres, close_request_id] using ⟨h1, h2, h3⟩
      | serverErr m c => simpa [start, hp, hs, hres, close_request_id] using ⟨h1, h2, h3⟩
      | authErr m => simpa [start, hp, hs, hres, close_request_id] using ⟨h1, h2, h3⟩

/-- No single session operation lowers the sticky authentication flag. -/
theorem runOp_flag_mono (st : ClientState) (op : SessionOp)
    (h : st.authentication_failed = true) :
    (runOp st op).1.authentication_failed = true := by
  cases op with
  | opStart env => simpa [runOp] using start_flag_mono st env h
  | opRpc m tmo env => simpa [runOp] using rpc_flag_mono st m tmo env h
  | opCallTool n tmo env => simpa [runOp] using call_tool_flag_mono st n tmo env h
  | opListTools env => simpa [runOp] using list_tools_flag_mono st env h
  | opClose beh => simpa [runOp, close_auth] using h

/-- No single session operation decreases the request-id counter, and its
allocated ids lie strictly above the old counter and at most at the new
one. -/
theorem runOp_id_bound (st : ClientState) (op : SessionOp) :
    st.request_id ≤ (runOp st op).1.request_id ∧
    (∀ i ∈ (runOp st op).2,
      st.request_id < i ∧ i ≤ (runOp st op).1.request_id) ∧
    List.Pairwise (· < ·) (runOp st op).2 := by
  cases op with
  | opStart env => simpa [runOp] using start_id_bound st env
  | opRpc m tmo env => simpa [runOp] using rpc_id_bound st m tmo env
  | opCallTool n tmo env => simpa [runOp] using call_tool_id_bound st n tmo env
  | opListTools env => simpa [runOp] using list_tools_id_bound st env
  | opClose beh => simp [runOp, close_request_id]

/-- No sequence of session operations lowers the sticky authentication
flag. -/
theorem runOps_flag_mono (st : ClientState) (ops : List SessionOp)
    (h : st.authentication_failed = true) :
    (runOps st ops).1.authentication_failed = true := by
  induction ops generalizing st with
  | nil => simpa [runOps] using h
  | cons op ops ih =>
    simp only [runOps]
    exact ih _ (runOp_flag_mono st op h)

/-- Over any sequence of session operations, the counter never decreases, the
allocated ids lie strictly between the initial and final counter values, and
the full allocation trace is strictly increasing. -/
theorem runOps_id_invariant (st : ClientState) (ops : List SessionOp) :
    st.request_id ≤ (runOps st ops).1.request_id ∧
    (∀ i ∈ (runOps st ops).2,
      st.request_id < i ∧ i ≤ (runOps st ops).1.request_id) ∧
    List.Pairwise (· < ·) (runOps st ops).2 := by
  induction ops generalizing st with
  | nil => simp [runOps]
  | cons op ops ih =>
    obtain ⟨a1, a2, a3⟩ := runOp_id_bound st op
    obtain ⟨b1, b2, b3⟩ := ih (runOp st op).1
    refine ⟨?_, ?_, ?_⟩
    · simp only [runOps]
      exact le_trans a1 b1
    · intro i hi
      simp only [runOps, List.mem_append] at hi
      simp only [runOps]
      rcases hi with hi | hi
      · obtain ⟨hlt, hle⟩ := a2 i hi
        exact ⟨hlt, le_trans hle b1⟩
      · obtain ⟨hlt, hle⟩ := b2 i hi
        exact ⟨lt_of_le_of_lt a1 hlt, hle⟩
    · simp only [runOps]
      refine List.pairwise_append.mpr ⟨a3, b3, ?_⟩
      intro x hx y hy
      obtain ⟨hx1, hx2⟩ := a2 x hx
      obtain ⟨hy1, hy2⟩ := b2 y hy
      omega

/-- An rpc call does not touch the process handle. -/
theorem rpc_proc (st : ClientState) (method : String) (tmo : Option Nat)
    (env : StreamEnv) :
    (rpc st method tmo env).state.proc = st.proc := by
  cases hp : st.proc with
  | none => simp [rpc, hp]
  | some u => by_cases hb : env.pipeBroken <;> simp [rpc, hp, hb]

/-- An rpc call does not touch the initialized flag. -/
theorem rpc_initialized (st : ClientState) (method : String) (tmo : Option Nat)
    (env : StreamEnv) :
    (rpc st method tmo env).state.initialized = st.initialized := by
  cases hp : st.proc with
  | none => simp [rpc, hp]
  | some u => by_cases hb : env.pipeBroken <;> simp [rpc, hp, hb]

/-- When a process handle is present, close clears the initialized flag. -/
theorem close_initialized_of_proc (st : ClientState) (beh : TermBehavior)
    (u : Unit) (hp : st.proc = some u) :
    (close st beh).initialized = false := by
  cases beh <;> simp [close, hp, closeBody]

/-- C6.  A fresh session starts with the authentication_failed flag false,
and once the flag is true no sequence of session operations (start, rpc call,
tool call, tool listing, close) ever makes it false again: only constructing
a new session yields a session with the flag clear. -/
theorem C6_sticky_auth_flag (t : Nat) (st : ClientState) (ops : List SessionOp)
    (h : st.authentication_failed = true) :
    (MCPClient_init t).authentication_failed = false ∧
    (runOps st ops).1.authentication_failed = true :=
  ⟨rfl, runOps_flag_mono st ops h⟩

/-- C6 witness: the theorem applied to a concrete latched session and a
concrete operation sequence. -/
theorem C6_sticky_auth_flag_witness :
    (MCPClient_init 30).authentication_failed = false ∧
    (runOps { proc := some (), request_id := 2, initialized := true,
              authentication_failed := true, timeout := 30 }
        [.opListTools silentEnv, .opClose .graceful,
         .opCallTool "list-invoices" none silentEnv]).1.authentication_failed
      = true :=
  C6_sticky_auth_flag 30
    { proc := some (), request_id := 2, initialized := true,
      authentication_failed := true, timeout := 30 }
    [.opListTools silentEnv, .opClose .graceful,
     .opCallTool "list-invoices" none silentEnv] rfl

/-- C8.  Over every sequence of session operations, the trace of request ids
allocated by the transport is strictly increasing position by position: every
id is strictly greater than every id allocated before it and no id is ever
reused, including across calls that end in an error or a timeout. -/
theorem C8_request_ids_strictly_increasing (st : ClientState)
    (ops : List SessionOp) :
    List.Pairwise (· < ·) (runOps st ops).2 :=
  (runOps_id_invariant st ops).2.2

/-- C7.  For a fresh session, the initialized flag becomes true only when
start returns normally after a successful handshake response; and whenever the
spawned process is running and the initialization handshake raises, start
raises ConnectionError with the final state equal to close applied to the
post-handshake state: the handle is cleared, so no spawned child process
survives such a failed start. -/
theorem C7_failed_handshake_closes (st : ClientState) (env : StartEnv)
    (hp : st.proc = none) (hi : st.initialized = false) :
    ((start st env).2.1.initialized = true → (start st env).1 = .ok) ∧
    (env.spawn = .running →
      raises (rpc { st with proc := some () } "initialize" none
        env.handshake).result = true →
      (start st env).1 = .connErr ∧
      (start st env).2.1
        = close (rpc { st with proc := some () } "initialize" none
            env.handshake).state env.closeBeh ∧
      (start st env).2.1.proc = none ∧
      (start st env).2.1.initialized = false) := by
  cases hs : env.spawn with
  | spawnFail =>
    constructor
    · intro hinit
      rw [show (start st env).2.1 = st by simp [start, hp, hs]] at hinit
      simp [hi] at hinit
    · intro hrun
      exact absurd hrun (by simp)
  | exitedImmediately =>
    constructor
    · intro hinit
      rw [show (start st env).2.1 = { st with proc := some () } by
        simp [start, hp, hs]] at hinit
      simp [hi] at hinit
    · intro hrun
      exact absurd hrun (by simp)
  | running =>
    have hproc : (rpc { st with proc := some () } "initialize" none
        env.handshake).state.proc = some () := by
      rw [rpc_proc]
    cases hres : (rpc { st with proc := some () } "initialize" none
        env.handshake).result
    case ok r =>
      constructor
      · intro _
        simp [start, hp, hs, hres]
      · intro _ hra
        simp [raises, hres] at hra
    case blocked =>
      constructor
      · intro hinit
        rw [show (start st env).2.1 = (rpc { st with proc := some () }
            "initialize" none env.handshake).state by
          simp [start, hp, hs, hres]] at hinit
        rw [rpc_initialized] at hinit
        simp [hi] at hinit
      · intro _ hra
        simp [raises, hres] at hra
    all_goals (
      constructor
      · intro hinit
        rw [show (start st env).2.1 = close (rpc { st with proc := some () }
            "initialize" none env.handshake).state env.closeBeh by
          simp [start, hp, hs, hres]] at hinit
        rw [close_initialized_of_proc _ _ () hproc] at hinit
        simp at hinit
      · intro _ _
        refine ⟨by simp [start, hp, hs, hres], by simp [start, hp, hs, hres],
          ?_, ?_⟩
        · rw [show (start st env).2.1 = close (rpc { st with proc := some () }
              "initialize" none env.handshake).state env.closeBeh by
            simp [start, hp, hs, hres]]
          exact close_proc _ _
        · rw [show (start st env).2.1 = close (rpc { st with proc := some () }
              "initialize" none env.handshake).state env.closeBeh by
            simp [start, hp, hs, hres]]
          exact close_initialized_of_proc _ _ () hproc)

/-- C1 (amended).  call_tool checks the initialized flag first: with
initialized false it fails with ConnectionError (even when the authentication
latch is set), performing no write and leaving the state untouched; with
initialized true and the latch set it fails immediately with
AuthenticationError, performing no write and leaving the state untouched, so
the short-circuit persists for every later call_tool on the session.
list_tools, by contrast, consults only the initialized flag and proceeds to
the rpc (including the stream write) regardless of the latch. -/
theorem C1_amended_short_circuit (st : ClientState) (name : String)
    (tmo : Option Nat) (env env2 : StreamEnv) :
    (st.initialized = false →
      call_tool st name tmo env
          = { result := .connErr, state := st, alloc := [], wrote := 0 } ∧
      list_tools st env2
          = { result := .connErr, state := st, alloc := [], wrote := 0 }) ∧
    (st.initialized = true → st.authentication_failed = true →
      call_tool st name tmo env
          = { result := .authErr "Previous authentication failure detected",
              state := st, alloc := [], wrote := 0 }) ∧
    (st.initialized = true →
      list_tools st env2 = rpc st "tools/list" none env2) := by
  refine ⟨fun hi => ⟨?_, ?_⟩, fun hi ha => ?_, fun hi => ?_⟩
  · simp [call_tool, hi]
  · simp [list_tools, hi]
  · simp [call_tool, hi, ha]
  · simp [list_tools, hi]

/-- C1 witness: the amended theorem applied to a concrete latched, initialized
session. -/
theorem C1_amended_short_circuit_witness :
    call_tool { proc := some (), request_id := 7, initialized := true,
                authentication_failed := true, timeout := 30 }
        "list-invoices" none silentEnv
      = { result := .authErr "Previous authentication failure detected",
          state := { proc := some (), request_id := 7, initialized := true,
                     authentication_failed := true, timeout := 30 },
          alloc := [], wrote := 0 } :=
  (C1_amended_short_circuit
    { proc := some (), request_id := 7, initialized := true,
      authentication_failed := true, timeout := 30 }
    "list-invoices" none silentEnv silentEnv).2.1 rfl rfl

/-- C10.  close modifies only the process handle and the initialized flag:
the sticky authentication flag, the request-id counter and the configured
timeout keep exactly their prior values, so a session closed and started again
still carries its previous latch and continues the same id sequence (the
counter never restarts below its prior value). -/
theorem C10_close_frame_only (st : ClientState) (beh : TermBehavior)
    (env : StartEnv) :
    (close st beh).authentication_failed = st.authentication_failed ∧
    (close st beh).request_id = st.request_id ∧
    (close st beh).timeout = st.timeout ∧
    (st.authentication_failed = true →
      (start (close st beh) env).2.1.authentication_failed = true) ∧
    st.request_id ≤ (start (close st beh) env).2.1.request_id := by
  refine ⟨close_auth st beh, close_request_id st beh, close_timeout st beh,
    fun h => start_flag_mono _ env ((close_auth st beh).trans h), ?_⟩
  have h1 := (start_id_bound (close st beh) env).1
  rw [close_request_id st beh] at h1
  exact h1

/-- C4 witness: the theorem applied to a concrete stream holding a malformed
line, a blank line, an empty read and a non-matching response before the
matching line. -/
theorem C4_noise_tolerance_witness :
    rpc { proc := some (), request_id := 0, initialized := true,
          authentication_failed := false, timeout := 5 } "tools/call" none
        { pipeBroken := false, procDeath := none,
          events := [(0, .malformed), (0, .blank), (0, .emptyRead),
              (0, .jsonLine { id := some 7, error := none, result := none })]
            ++ [(1, .jsonLine { id := some 1, error := none, result := none })] }
      = rpc { proc := some (), request_id := 0, initialized := true,
              authentication_failed := false, timeout := 5 } "tools/call" none
          (singleEnv 2 { id := some 1, error := none, result := none }) ∧
    (rpc { proc := some (), request_id := 0, initialized := true,
           authentication_failed := false, timeout := 5 } "tools/call" none
        { pipeBroken := false, procDeath := none,
          events := [(0, .malformed), (0, .blank), (0, .emptyRead),
              (0, .jsonLine { id := some 7, error := none, result := none })]
            ++ [(1, .jsonLine { id := some 1, error := none, result := none })] }).result
      = (resolveMatch { id := some 1, error := none, result := none } false).1 :=
  C4_noise_tolerance
    { proc := some (), request_id := 0, initialized := true,
      authentication_failed := false, timeout := 5 } "tools/call" none
    [(0, .malformed), (0, .blank), (0, .emptyRead),
     (0, .jsonLine { id := some 7, error := none, result := none })]
    { id := some 1, error := none, result := none } 1 2
    rfl (by decide) (by decide) (by decide)

/-- C10 witness: the theorem applied to a concrete latched session, closed and
started again. -/
theorem C10_close_frame_only_witness :
    (close { proc := some (), request_id := 4, initialized := true,
             authentication_failed := true, timeout := 9 } .graceful).request_id
      = 4 ∧
    (start (close { proc := some (), request_id := 4, initialized := true,
                    authentication_failed := true, timeout := 9 } .graceful)
        { spawn := .spawnFail, handshake := silentEnv,
          closeBeh := .graceful }).2.1.authentication_failed = true :=
  ⟨(C10_close_frame_only
      { proc := some (), request_id := 4, initialized := true,
        authentication_failed := true, timeout := 9 } .graceful
      { spawn := .spawnFail, handshake := silentEnv, closeBeh := .graceful }).2.1,
   (C10_close_frame_only
      { proc := some (), request_id := 4, initialized := true,
        authentication_failed := true, timeout := 9 } .graceful
      { spawn := .spawnFail, handshake := silentEnv, closeBeh := .graceful }).2.2.2.1 rfl⟩

/-- C5 witness: the theorem applied to the specification's example of a
nominally successful result whose first content block reads Request failed:
Forbidden. -/
theorem C5_response_classification_witness :
    (call_tool { proc := some (), request_id := 0, initialized := true,
                 authentication_failed := false, timeout := 5 } "run-report" none
        (singleEnv 0 forbiddenResp)).result
      = .authErr "Request failed: Forbidden" ∧
    (call_tool { proc := some (), request_id := 0, initialized := true,
                 authentication_failed := false, timeout := 5 } "run-report" none
        (singleEnv 0 forbiddenResp)).state.authentication_failed = true :=
  (C5_response_classification
    { proc := some (), request_id := 0, initialized := true,
      authentication_failed := false, timeout := 5 } "run-report" none
    forbiddenResp 0 rfl rfl rfl (by decide) (by decide)).2.2.1 rfl
    "Request failed: Forbidden" (by decide)

/-- C7 witness: the theorem applied to a fresh client whose handshake receives
an explicit server error. -/
theorem C7_failed_handshake_closes_witness :
    (start (MCPClient_init 5) boomStartEnv).1 = .connErr ∧
    (start (MCPClient_init 5) boomStartEnv).2.1.proc = none :=
  ⟨((C7_failed_handshake_closes (MCPClient_init 5) boomStartEnv rfl rfl).2
      rfl (by decide)).1,
   ((C7_failed_handshake_closes (MCPClient_init 5) boomStartEnv rfl rfl).2
      rfl (by decide)).2.2.1⟩

end Xero
